import Mathlib

/-!
Verification of the asynchronous generation-job tracker of the TG_image bot
(`services/task_tracker.py`), against its natural-language specification.

The tracker's data are Python values produced by `aiohttp` JSON decoding, so we
embed a JSON-like value type `Json` (with `Json.null` also standing for Python
`None`), together with the Python operations the tracker uses on such values:
truthiness, `dict.get` with default, string lowering, `[0]` indexing, `or`,
`str()`.  Operations that can raise in Python (`.get` on a non-dict,
`.lower()` on a non-string, bad indexing) return `Except PyErr`.
-/

namespace TaskTrackerSpec

/-- JSON-like Python value as returned by `resp.json()`.  `null` also models
Python `None` (JSON `null` decodes to `None`, and `dict.get` of an absent key
returns `None`). Numbers are modelled as integers only. -/
inductive Json where
  | null
  | bool (b : Bool)
  | num (n : Int)
  | str (s : String)
  | arr (xs : List Json)
  | obj (fields : List (String × Json))

mutual

/-- Decidable equality for `Json` (the nested inductive defeats `deriving`). -/
def Json.decEq : (a b : Json) → Decidable (a = b)
  | .null, .null => isTrue rfl
  | .null, .bool _ => isFalse (fun h => Json.noConfusion h)
  | .null, .num _ => isFalse (fun h => Json.noConfusion h)
  | .null, .str _ => isFalse (fun h => Json.noConfusion h)
  | .null, .arr _ => isFalse (fun h => Json.noConfusion h)
  | .null, .obj _ => isFalse (fun h => Json.noConfusion h)
  | .bool _, .null => isFalse (fun h => Json.noConfusion h)
  | .bool a, .bool b =>
    if h : a = b then isTrue (by simp [h]) else isFalse (by simp [h])
  | .bool _, .num _ => isFalse (fun h => Json.noConfusion h)
  | .bool _, .str _ => isFalse (fun h => Json.noConfusion h)
  | .bool _, .arr _ => isFalse (fun h => Json.noConfusion h)
  | .bool _, .obj _ => isFalse (fun h => Json.noConfusion h)
  | .num _, .null => isFalse (fun h => Json.noConfusion h)
  | .num _, .bool _ => isFalse (fun h => Json.noConfusion h)
  | .num a, .num b =>
    if h : a = b then isTrue (by simp [h]) else isFalse (by simp [h])
  | .num _, .str _ => isFalse (fun h => Json.noConfusion h)
  | .num _, .arr _ => isFalse (fun h => Json.noConfusion h)
  | .num _, .obj _ => isFalse (fun h => Json.noConfusion h)
  | .str _, .null => isFalse (fun h => Json.noConfusion h)
  | .str _, .bool _ => isFalse (fun h => Json.noConfusion h)
  | .str _, .num _ => isFalse (fun h => Json.noConfusion h)
  | .str a, .str b =>
    if h : a = b then isTrue (by simp [h]) else isFalse (by simp [h])
  | .str _, .arr _ => isFalse (fun h => Json.noConfusion h)
  | .str _, .obj _ => isFalse (fun h => Json.noConfusion h)
  | .arr _, .null => isFalse (fun h => Json.noConfusion h)
  | .arr _, .bool _ => isFalse (fun h => Json.noConfusion h)
  | .arr _, .num _ => isFalse (fun h => Json.noConfusion h)
  | .arr _, .str _ => isFalse (fun h => Json.noConfusion h)
  | .arr xs, .arr ys =>
    match Json.decEqList xs ys with
    | isTrue h => isTrue (by simp [h])
    | isFalse h => isFalse (by simp [h])
  | .arr _, .obj _ => isFalse (fun h => Json.noConfusion h)
  | .obj _, .null => isFalse (fun h => Json.noConfusion h)
  | .obj _, .bool _ => isFalse (fun h => Json.noConfusion h)
  | .obj _, .num _ => isFalse (fun h => Json.noConfusion h)
  | .obj _, .str _ => isFalse (fun h => Json.noConfusion h)
  | .obj _, .arr _ => isFalse (fun h => Json.noConfusion h)
  | .obj fs, .obj gs =>
    match Json.decEqFields fs gs with
    | isTrue h => isTrue (by simp [h])
    | isFalse h => isFalse (by simp [h])

/-- Decidable equality for lists of `Json`. -/
def Json.decEqList : (xs ys : List Json) → Decidable (xs = ys)
  | [], [] => isTrue rfl
  | [], _ :: _ => isFalse (fun h => List.noConfusion h)
  | _ :: _, [] => isFalse (fun h => List.noConfusion h)
  | x :: xs, y :: ys =>
    match Json.decEq x y with
    | isFalse h => isFalse (by simp [h])
    | isTrue h =>
      match Json.decEqList xs ys with
      | isTrue h2 => isTrue (by simp [h, h2])
      | isFalse h2 => isFalse (by simp [h2])

/-- Decidable equality for association lists of `Json`. -/
def Json.decEqFields : (fs gs : List (String × Json)) → Decidable (fs = gs)
  | [], [] => isTrue rfl
  | [], _ :: _ => isFalse (fun h => List.noConfusion h)
  | _ :: _, [] => isFalse (fun h => List.noConfusion h)
  | (k, v) :: fs, (l, w) :: gs =>
    if hk : k = l then
      match Json.decEq v w with
      | isFalse h => isFalse (by simp [h])
      | isTrue h =>
        match Json.decEqFields fs gs with
        | isTrue h2 => isTrue (by simp [hk, h, h2])
        | isFalse h2 => isFalse (by simp [h2])
    else isFalse (by simp [hk])

end

instance : DecidableEq Json := Json.decEq

/-- Python exception kinds that the tracker code can raise while poking at a
payload (`.get` on a non-dict, `.lower()` on a non-string, bad `[0]`). -/
inductive PyErr where
  | attributeError
  | typeError
  | keyError
  | indexError
deriving DecidableEq

instance {ε α : Type} [DecidableEq ε] [DecidableEq α] : DecidableEq (Except ε α)
  | .error e, .error f => if h : e = f then isTrue (by simp [h]) else isFalse (by simp [h])
  | .error _, .ok _ => isFalse (fun h => Except.noConfusion h)
  | .ok _, .error _ => isFalse (fun h => Except.noConfusion h)
  | .ok a, .ok b => if h : a = b then isTrue (by simp [h]) else isFalse (by simp [h])

/-- Python truthiness `bool(v)` of a JSON-like value. -/
def Json.truthy : Json → Bool
  | .null => false
  | .bool b => b
  | .num n => n != 0
  | .str s => s != ""
  | .arr xs => !xs.isEmpty
  | .obj fs => !fs.isEmpty

/-- Lookup in a Python dict: `d.get(k, default)` where `d` is known to be a
dict (given as its association list). -/
def dictGet (fields : List (String × Json)) (k : String) (default : Json) : Json :=
  match fields.find? (fun p => p.1 == k) with
  | some p => p.2
  | none => default

/-- Python `v.get(k, default)` on an arbitrary value: raises `AttributeError`
when `v` is not a dict. -/
def Json.pyGet (v : Json) (k : String) (default : Json) : Except PyErr Json :=
  match v with
  | .obj fs => Except.ok (dictGet fs k default)
  | _ => Except.error PyErr.attributeError

/-- Python equality test `v == n` between a JSON-like value and an int literal
(Python treats `True == 1` and `False == 0` as true; floats are not
modelled). -/
def jsonEqInt (v : Json) (n : Int) : Bool :=
  match v with
  | .num m => m == n
  | .bool b => (if b then (1 : Int) else 0) == n
  | _ => false

/-- ASCII lowering by character (kernel-reducible replacement for
`String.toLower`, which is defined by well-founded recursion; the status
strings involved are ASCII). -/
def strLower (s : String) : String :=
  String.mk (s.data.map Char.toLower)

/-- Python `v.lower()`: raises `AttributeError` unless `v` is a string. -/
def pyLower (v : Json) : Except PyErr String :=
  match v with
  | .str s => Except.ok (strLower s)
  | _ => Except.error PyErr.attributeError

/-- Python `v[0]`: first element of a list, first character of a string,
`KeyError` on a dict (the tracker only uses string keys), `IndexError` on an
empty sequence, `TypeError` otherwise. -/
def pyIndex0 (v : Json) : Except PyErr Json :=
  match v with
  | .arr (x :: _) => Except.ok x
  | .arr [] => Except.error PyErr.indexError
  | .str s =>
    match s.data with
    | c :: _ => Except.ok (Json.str (String.mk [c]))
    | [] => Except.error PyErr.indexError
  | .obj _ => Except.error PyErr.keyError
  | _ => Except.error PyErr.typeError

/-- Python `a or b` (no exceptions arise at the call sites we model, so the
eager form is faithful). -/
def pyOr (a b : Json) : Json :=
  if a.truthy then a else b

mutual

/-- Python `repr()` of a JSON-like value, used for elements inside container
renderings.  Deviation from CPython: strings are quoted with double quotes
instead of single quotes; this only influences log-message substring tests
and the text of one error string, never a status classification. -/
def pyRepr : Json → String
  | Json.null => "None"
  | Json.bool true => "True"
  | Json.bool false => "False"
  | Json.num n => toString n
  | Json.str s => "\"" ++ s ++ "\""
  | Json.arr xs => "[" ++ pyReprSeq xs ++ "]"
  | Json.obj fs => "\x7b" ++ pyReprFields fs ++ "\x7d"

/-- Comma-separated `repr()` rendering of a list of values. -/
def pyReprSeq : List Json → String
  | [] => ""
  | [x] => pyRepr x
  | x :: y :: rest => pyRepr x ++ ", " ++ pyReprSeq (y :: rest)

/-- Comma-separated `repr()` rendering of dict entries. -/
def pyReprFields : List (String × Json) → String
  | [] => ""
  | [(k, v)] => "\"" ++ k ++ "\": " ++ pyRepr v
  | (k, v) :: y :: rest => "\"" ++ k ++ "\": " ++ pyRepr v ++ ", " ++ pyReprFields (y :: rest)

end

/-- Python `str()` of a JSON-like value. -/
def pyStr (v : Json) : String :=
  match v with
  | Json.str s => s
  | _ => pyRepr v

/-- Substring test on character lists. -/
def charsContains : List Char → List Char → Bool
  | [], pat => pat.isEmpty
  | c :: rest, pat => pat.isPrefixOf (c :: rest) || charsContains rest pat

/-- Python `pat in s` substring test. -/
def containsSubstr (s pat : String) : Bool :=
  charsContains s.data pat.data

/-! Model of `json.loads`, used by `_parse_sora_status` on the `resultJson`
field.  We implement the JSON grammar restricted to the shapes `Json` models
(objects, arrays, double-quoted strings with the common escapes, integers,
`true`/`false`/`null`); a string outside this subset parses to `none`, which
models `json.JSONDecodeError`. -/

/-- Opening brace character. -/
def lbrace : Char := Char.ofNat 123

/-- Closing brace character. -/
def rbrace : Char := Char.ofNat 125

/-- Drop leading JSON whitespace. -/
def skipWs : List Char → List Char
  | c :: rest =>
    if c = ' ' ∨ c = '\t' ∨ c = '\n' ∨ c = '\r' then skipWs rest else c :: rest
  | [] => []

/-- Parse the remainder of a JSON string literal (the opening quote has been
consumed); supports the escapes the tracker payloads use. -/
def parseStringLit : List Char → Option (String × List Char)
  | [] => none
  | c :: rest =>
    if c = '"' then some ("", rest)
    else if c = '\\' then
      match rest with
      | [] => none
      | e :: rest2 =>
        let esc : Option Char :=
          if e = '"' then some '"'
          else if e = '\\' then some '\\'
          else if e = '/' then some '/'
          else if e = 'n' then some '\n'
          else if e = 't' then some '\t'
          else if e = 'r' then some '\r'
          else none
        match esc with
        | none => none
        | some ch =>
          match parseStringLit rest2 with
          | some (s, r) => some (String.mk (ch :: s.data), r)
          | none => none
    else
      match parseStringLit rest with
      | some (s, r) => some (String.mk (c :: s.data), r)
      | none => none

/-- Digits-to-number accumulator. -/
def digitsToNat (ds : List Char) : Nat :=
  ds.foldl (fun acc c => acc * 10 + (c.toNat - 48)) 0

/-- Parse a JSON integer (floats are outside the model and yield `none`). -/
def parseIntLit (cs : List Char) : Option (Int × List Char) :=
  let (neg, cs1) := match cs with
    | '-' :: rest => (true, rest)
    | _ => (false, cs)
  let (ds, rest) := cs1.span (fun c => c.isDigit)
  if ds.isEmpty then none
  else
    match rest with
    | c :: _ =>
      if c = '.' ∨ c = 'e' ∨ c = 'E' then none
      else some (if neg then -(digitsToNat ds : Int) else (digitsToNat ds : Int), rest)
    | [] => some (if neg then -(digitsToNat ds : Int) else (digitsToNat ds : Int), [])

/-- Match an expected literal tail such as `rue` of `true`. -/
def dropLit : List Char → List Char → Option (List Char)
  | [], cs => some cs
  | e :: es, c :: cs => if c = e then dropLit es cs else none
  | _ :: _, [] => none

mutual

/-- Parse one JSON value; `fuel` bounds the recursion depth. -/
def jsonVal : Nat → List Char → Option (Json × List Char)
  | 0, _ => none
  | fuel + 1, cs =>
    match skipWs cs with
    | [] => none
    | c :: rest =>
      if c = '"' then
        match parseStringLit rest with
        | some (s, r) => some (Json.str s, r)
        | none => none
      else if c = '[' then
        match skipWs rest with
        | ']' :: r => some (Json.arr [], r)
        | cs2 => jsonArrItems fuel cs2 []
      else if c = lbrace then
        match skipWs rest with
        | d :: r => if d = rbrace then some (Json.obj [], r) else jsonObjItems fuel (d :: r) []
        | [] => none
      else if c = 't' then
        match dropLit ['r', 'u', 'e'] rest with
        | some r => some (Json.bool true, r)
        | none => none
      else if c = 'f' then
        match dropLit ['a', 'l', 's', 'e'] rest with
        | some r => some (Json.bool false, r)
        | none => none
      else if c = 'n' then
        match dropLit ['u', 'l', 'l'] rest with
        | some r => some (Json.null, r)
        | none => none
      else
        match parseIntLit (c :: rest) with
        | some (n, r) => some (Json.num n, r)
        | none => none

/-- Parse the items of a non-empty JSON array. -/
def jsonArrItems : Nat → List Char → List Json → Option (Json × List Char)
  | 0, _, _ => none
  | fuel + 1, cs, acc =>
    match jsonVal fuel cs with
    | none => none
    | some (v, r) =>
      match skipWs r with
      | ',' :: r2 => jsonArrItems fuel r2 (acc ++ [v])
      | ']' :: r2 => some (Json.arr (acc ++ [v]), r2)
      | _ => none

/-- Parse the entries of a non-empty JSON object. -/
def jsonObjItems : Nat → List Char → List (String × Json) → Option (Json × List Char)
  | 0, _, _ => none
  | fuel + 1, cs, acc =>
    match skipWs cs with
    | '"' :: rest =>
      match parseStringLit rest with
      | none => none
      | some (k, r) =>
        match skipWs r with
        | ':' :: r2 =>
          match jsonVal fuel r2 with
          | none => none
          | some (v, r3) =>
            match skipWs r3 with
            | ',' :: r4 => jsonObjItems fuel r4 (acc ++ [(k, v)])
            | d :: r4 =>
              if d = rbrace then some (Json.obj (acc ++ [(k, v)]), r4) else none
            | [] => none
        | _ => none
    | _ => none

end

/-- Model of Python `json.loads` on the subset of JSON described above;
`none` models `json.JSONDecodeError`. -/
def jsonLoads (s : String) : Option Json :=
  match jsonVal (s.data.length + 2) s.data with
  | some (v, r) => if (skipWs r).isEmpty then some v else none
  | none => none

/-! Embedding of `services/task_tracker.py`. -/

/-- Result triple of the `_parse_*_status` helpers: `(status, video_url,
error)`.  `Json.null` models Python `None` in the last two components (the
code is annotated `Optional[str]` but actually forwards whatever JSON value
it extracted, so we keep the full value). -/
structure ParseResult where
  status : String
  video_url : Json
  error : Json
deriving DecidableEq

/-- Transcription of `TaskTracker._parse_veo_status` (lines 60-134); the
`task` argument only feeds log messages and is omitted.  The non-200 arm is
written as a flat conditional: in the source, both recognized 422 messages
and the final fall-through all `return "pending", None, None`. -/
def parse_veo_status (response : List (String × Json)) : Except PyErr ParseResult :=
  let code := dictGet response "code" Json.null
  let msg := dictGet response "msg" (Json.str "")
  if ¬ jsonEqInt code 200 then
    if jsonEqInt code 422 ∧ containsSubstr (strLower (pyStr msg)) "record is null" then
      Except.ok ⟨"pending", Json.null, Json.null⟩
    else if jsonEqInt code 422 ∧ containsSubstr (strLower (pyStr msg)) "record status is not success" then
      Except.ok ⟨"pending", Json.null, Json.null⟩
    else
      Except.ok ⟨"pending", Json.null, Json.null⟩
  else
    let data := dictGet response "data" (Json.obj [])
    if ¬ data.truthy then
      Except.ok ⟨"pending", Json.null, Json.null⟩
    else
      match data with
      | Json.obj fs =>
        let success_flag := dictGet fs "successFlag" Json.null
        if jsonEqInt success_flag 1 then
          let primary : Except PyErr Json :=
            match dictGet fs "response" (Json.obj []) with
            | Json.obj rfs =>
              let result_urls := dictGet rfs "resultUrls" (Json.arr [])
              if result_urls.truthy then pyIndex0 result_urls else Except.ok Json.null
            | _ => Except.ok Json.null
          match primary with
          | Except.error e => Except.error e
          | Except.ok v1 =>
            let secondary : Except PyErr Json :=
              if ¬ v1.truthy then
                let result_urls := dictGet fs "resultUrls" (Json.arr [])
                if result_urls.truthy then pyIndex0 result_urls else Except.ok Json.null
              else Except.ok v1
            match secondary with
            | Except.error e => Except.error e
            | Except.ok video_url =>
              if video_url.truthy then
                Except.ok ⟨"completed", video_url, Json.null⟩
              else
                Except.ok ⟨"pending", Json.null, Json.null⟩
        else if jsonEqInt success_flag 0 then
          let error_msg := pyOr (dictGet fs "errorMessage" Json.null) (dictGet fs "errorCode" Json.null)
          if error_msg.truthy then
            Except.ok ⟨"failed", Json.null, Json.str (pyStr error_msg)⟩
          else
            Except.ok ⟨"pending", Json.null, Json.null⟩
        else
          Except.ok ⟨"pending", Json.null, Json.null⟩
      | _ => Except.error PyErr.attributeError

/-- State-string derivation of `_parse_sora_status` lines 149-153:
`data.get("state", "").lower()` with fallbacks to `status` and `taskStatus`
while the previous probe is empty. -/
def soraStateOf (fs : List (String × Json)) : Except PyErr String :=
  match pyLower (dictGet fs "state" (Json.str "")) with
  | Except.error e => Except.error e
  | Except.ok st1 =>
    match (if st1 = "" then pyLower (dictGet fs "status" (Json.str "")) else Except.ok st1) with
    | Except.error e => Except.error e
    | Except.ok st2 =>
      if st2 = "" then pyLower (dictGet fs "taskStatus" (Json.str "")) else Except.ok st2

/-- Transcription of `TaskTracker._parse_sora_status` (lines 136-198).  The
four result-locator formats are probed in source order; `f1`/`f2`/`f3` keep
the previously found value when it is already truthy, mirroring the
`if not video_url:` chain. -/
def parse_sora_status (response : List (String × Json)) : Except PyErr ParseResult :=
  let code := dictGet response "code" Json.null
  if ¬ jsonEqInt code 200 then
    Except.ok ⟨"pending", Json.null, Json.null⟩
  else
    match dictGet response "data" (Json.obj []) with
    | Json.obj fs =>
      match soraStateOf fs with
      | Except.error e => Except.error e
      | Except.ok state =>
        if state = "success" ∨ state = "completed" ∨ state = "done" then
          let f1 : Except PyErr Json :=
            match dictGet fs "resultJson" Json.null with
            | Json.str s =>
              if s ≠ "" then
                match jsonLoads s with
                | none => Except.ok Json.null
                | some (Json.obj rfs) =>
                  let urls := dictGet rfs "resultUrls" (Json.arr [])
                  if urls.truthy then pyIndex0 urls else Except.ok Json.null
                | some _ => Except.error PyErr.attributeError
              else Except.ok Json.null
            | _ => Except.ok Json.null
          match f1 with
          | Except.error e => Except.error e
          | Except.ok v1 =>
            let f2 : Except PyErr Json :=
              if ¬ v1.truthy then
                match dictGet fs "resultJson" (Json.obj []) with
                | Json.obj rfs =>
                  let urls := dictGet rfs "resultUrls" (Json.arr [])
                  if urls.truthy then pyIndex0 urls else Except.ok Json.null
                | _ => Except.ok Json.null
              else Except.ok v1
            match f2 with
            | Except.error e => Except.error e
            | Except.ok v2 =>
              let f3 : Except PyErr Json :=
                if ¬ v2.truthy then
                  match dictGet fs "videoInfo" (Json.obj []) with
                  | Json.obj vfs => Except.ok (dictGet vfs "videoUrl" Json.null)
                  | _ => Except.error PyErr.attributeError
                else Except.ok v2
              match f3 with
              | Except.error e => Except.error e
              | Except.ok v3 =>
                let video_url :=
                  if ¬ v3.truthy then
                    pyOr (pyOr (dictGet fs "videoUrl" Json.null) (dictGet fs "video_url" Json.null))
                      (dictGet fs "url" Json.null)
                  else v3
                if video_url.truthy then
                  Except.ok ⟨"completed", video_url, Json.null⟩
                else
                  Except.ok ⟨"pending", Json.null, Json.null⟩
        else if state = "failed" ∨ state = "fail" ∨ state = "error" then
          Except.ok ⟨"failed", Json.null,
            pyOr (pyOr (pyOr (dictGet fs "failMsg" Json.null) (dictGet fs "errorMessage" Json.null))
              (dictGet fs "error" Json.null)) (Json.str "Generation failed")⟩
        else
          Except.ok ⟨"pending", Json.null, Json.null⟩
    | _ => Except.error PyErr.attributeError

/-- Transcription of `TaskTracker._parse_heygen_status` (lines 200-210). -/
def parse_heygen_status (response : List (String × Json)) : Except PyErr ParseResult :=
  match dictGet response "data" (Json.obj []) with
  | Json.obj fs =>
    let status := dictGet fs "status" (Json.str "unknown")
    if status = Json.str "completed" then
      Except.ok ⟨"completed", dictGet fs "video_url" Json.null, Json.null⟩
    else if status = Json.str "failed" then
      Except.ok ⟨"failed", Json.null, dictGet fs "error" (Json.str "Generation failed")⟩
    else
      Except.ok ⟨"pending", Json.null, Json.null⟩
  | _ => Except.error PyErr.attributeError

/-- Mirror of the `VideoTask` dataclass.  `created_at` is a timestamp in
seconds (`datetime` arithmetic becomes integer arithmetic); `model` is a
plain string because the `Literal` annotation is not enforced at runtime (the
handlers also register `"kling_motion"` tasks); `subtitles_data` is the
attribute attached dynamically in `handlers/avatar_video.py` line 864, with
`Json.null` standing for "never attached". -/
structure VideoTask where
  task_id : String
  chat_id : Int
  user_id : Int
  model : String
  created_at : Int
  prompt : String := ""
  status : String := "pending"
  result_url : Json := Json.null
  error : Json := Json.null
  subtitles_data : Json := Json.null
deriving DecidableEq

/-- Transcription of `TaskTracker._parse_status` (lines 212-220): dispatch on
`task.model`. -/
def parse_status (task : VideoTask) (response : List (String × Json)) : Except PyErr ParseResult :=
  if task.model = "heygen" then
    parse_heygen_status response
  else if task.model = "veo3" ∨ task.model = "veo3_fast" then
    parse_veo_status response
  else
    parse_sora_status response

/-- The registry `self.tasks`: an insertion-ordered association list, whose
order matches Python dict iteration order. -/
abbrev Registry := List (String × VideoTask)

/-- Transcription of `TaskTracker.add_task` (lines 34-37): plain dict
assignment `self.tasks[task.task_id] = task` — an existing entry is replaced
in place, a new id is appended. -/
def add_task (tasks : Registry) (task : VideoTask) : Registry :=
  if tasks.any (fun p => p.1 == task.task_id) then
    tasks.map (fun p => if p.1 == task.task_id then (p.1, task) else p)
  else
    tasks ++ [(task.task_id, task)]

/-- Transcription of `TaskTracker.remove_task` (lines 39-42); the membership
guard makes it a filter. -/
def remove_task (tasks : Registry) (task_id : String) : Registry :=
  tasks.filter (fun p => p.1 != task_id)

/-- Dict lookup `self.tasks.get(task_id)`, used to state registry facts. -/
def lookupTask (tasks : Registry) (task_id : String) : Option VideoTask :=
  (tasks.find? (fun p => p.1 == task_id)).map Prod.snd

/-- Outcome of one provider-gateway status call (`heygen_service` /
`kieai_service`): either the decoded JSON dict, or a raised exception carrying
its message.  The gateway behaviour is a function of `(model, task_id)`,
matching the dispatch in `check_task_status`. -/
inductive GatewayResult where
  | ok (response : List (String × Json))
  | exn (msg : String)

/-- Transcription of `TaskTracker.check_task_status` (lines 44-58): the
dispatched service call inside `try`, with any exception turned into
`{"error": str(e)}`. -/
def check_task_status (gw : String → String → GatewayResult) (task : VideoTask) :
    List (String × Json) :=
  match gw task.model task.task_id with
  | GatewayResult.ok r => r
  | GatewayResult.exn e => [("error", Json.str e)]

/-- One attempted Telegram bot call made by the `_notify_*` helpers.  Whether
an attempt raises is decided by an external oracle (`sendFails`); the
exception is caught inside the helper either way, so only the sequence of
attempts is observable. -/
inductive Event where
  | sendVideo (chat_id : Int) (task_id : String) (video_url : Json)
  | sendMessageSuccess (chat_id : Int) (task_id : String) (video_url : Json)
  | sendMessageFailure (chat_id : Int) (task_id : String) (error : Json)
  | sendMessageTimeout (chat_id : Int) (task_id : String)
deriving DecidableEq

/-- Bot calls attempted by `TaskTracker._notify_success` (lines 260-300):
`send_video` first and, when that raises, the `send_message` link fallback;
every exception is caught, so the helper always returns normally.  The poller
body only runs when `self._bot` is set, so the `if not self._bot` guard is
outside the model. -/
def notify_success (sendFails : Event → Bool) (task : VideoTask) (video_url : Json) :
    List Event :=
  let first := Event.sendVideo task.chat_id task.task_id video_url
  if sendFails first then
    [first, Event.sendMessageSuccess task.chat_id task.task_id video_url]
  else
    [first]

/-- Bot call attempted by `TaskTracker._notify_failure` (lines 302-319). -/
def notify_failure (task : VideoTask) (error : Json) : List Event :=
  [Event.sendMessageFailure task.chat_id task.task_id error]

/-- Bot call attempted by `TaskTracker._notify_timeout` (lines 321-338). -/
def notify_timeout (task : VideoTask) : List Event :=
  [Event.sendMessageTimeout task.chat_id task.task_id]

/-- Timeout budget `timedelta(minutes=30)` of `poll_tasks` line 236, in
seconds; the same literal is used for every task whatever its `model`. -/
def timeoutSeconds : Int := 30 * 60

/-- Body of the per-job `for` loop of `TaskTracker.poll_tasks` (lines
234-254): timeout check before the gateway call, then parse, then the
completed / failed / pending three-way branch.  The returned pair is the
updated registry and the bot calls attempted for this job; an uncaught parse
exception is propagated. -/
def processTask (gw : String → String → GatewayResult) (sendFails : Event → Bool)
    (now : Int) (tasks : Registry) (task : VideoTask) :
    Except PyErr (Registry × List Event) :=
  if now - task.created_at > timeoutSeconds then
    Except.ok (remove_task tasks task.task_id, notify_timeout task)
  else
    match parse_status task (check_task_status gw task) with
    | Except.error e => Except.error e
    | Except.ok r =>
      if r.status = "completed" ∧ r.video_url.truthy then
        Except.ok (remove_task tasks task.task_id, notify_success sendFails task r.video_url)
      else if r.status = "failed" ∧ r.error.truthy then
        Except.ok (remove_task tasks task.task_id, notify_failure task r.error)
      else
        Except.ok (tasks, [])

/-- Observable outcome of one tick: final registry, attempted bot calls, and
the exception (if any) that escaped the for-loop into the while-level
`except`. -/
structure TickResult where
  tasks : Registry
  events : List Event
  aborted : Option PyErr
deriving DecidableEq

/-- Iteration of the per-job body over the remaining snapshot entries.  The
`try`/`except` of `poll_tasks` sits outside the `for`, so the first uncaught
exception abandons the remaining snapshot entries, keeping the registry and
events accumulated so far. -/
def pollTasksGo (gw : String → String → GatewayResult) (sendFails : Event → Bool)
    (now : Int) : List VideoTask → Registry → List Event → TickResult
  | [], tasks, events => ⟨tasks, events, none⟩
  | task :: rest, tasks, events =>
    match processTask gw sendFails now tasks task with
    | Except.error e => ⟨tasks, events, some e⟩
    | Except.ok (tasks2, evs) => pollTasksGo gw sendFails now rest tasks2 (events ++ evs)

/-- One tick of `TaskTracker.poll_tasks`: snapshot
`list(self.tasks.values())`, then run the per-job body over the snapshot
while removals mutate the live registry. -/
def pollTick (gw : String → String → GatewayResult) (sendFails : Event → Bool)
    (now : Int) (tasks : Registry) : TickResult :=
  pollTasksGo gw sendFails now (tasks.map Prod.snd) tasks []

/-- Registry after `n` ticks of the polling loop; tick `i` runs against
gateway behaviour `gw i`, send-failure oracle `sf i` and clock `times i`.
The function is total: a tick whose for-loop was aborted by an exception
still yields a registry (the while-level `except` logs and sleeps), and the
loop always proceeds to the next tick. -/
def pollLoop (gw : Nat → String → String → GatewayResult) (sf : Nat → Event → Bool)
    (times : Nat → Int) (tasks : Registry) : Nat → Registry
  | 0 => tasks
  | n + 1 => (pollTick (gw n) (sf n) (times n) (pollLoop gw sf times tasks n)).tasks

/-! Refinement predicates, written from the specification's words rather than
from the code: they spell out what counts as an "explicit, unambiguous"
failure or success marker for each provider family, so that the conservative
normalization claims can be stated as "no marker, no terminal verdict". -/

/-- Explicit failure marker of a Veo payload per the spec: a 200 envelope
whose data object carries `successFlag == 0` together with a non-empty
`errorMessage` or `errorCode`. -/
def veoFailureMarker (response : List (String × Json)) : Bool :=
  jsonEqInt (dictGet response "code" Json.null) 200 &&
    (match dictGet response "data" (Json.obj []) with
     | Json.obj fs =>
       jsonEqInt (dictGet fs "successFlag" Json.null) 0 &&
         (pyOr (dictGet fs "errorMessage" Json.null) (dictGet fs "errorCode" Json.null)).truthy
     | _ => false)

/-- Explicit success marker of a Veo payload per the spec: a 200 envelope
whose data object carries `successFlag == 1`. -/
def veoSuccessMarker (response : List (String × Json)) : Bool :=
  jsonEqInt (dictGet response "code" Json.null) 200 &&
    (match dictGet response "data" (Json.obj []) with
     | Json.obj fs => jsonEqInt (dictGet fs "successFlag" Json.null) 1
     | _ => false)

/-- Explicit failure marker of a Sora payload per the spec: a 200 envelope
whose derived state string is one of `failed`, `fail`, `error`. -/
def soraFailureMarker (response : List (String × Json)) : Bool :=
  jsonEqInt (dictGet response "code" Json.null) 200 &&
    (match dictGet response "data" (Json.obj []) with
     | Json.obj fs =>
       match soraStateOf fs with
       | Except.ok st => st == "failed" || st == "fail" || st == "error"
       | Except.error _ => false
     | _ => false)

/-- Explicit success marker of a Sora payload per the spec: a 200 envelope
whose derived state string is one of `success`, `completed`, `done`. -/
def soraSuccessMarker (response : List (String × Json)) : Bool :=
  jsonEqInt (dictGet response "code" Json.null) 200 &&
    (match dictGet response "data" (Json.obj []) with
     | Json.obj fs =>
       match soraStateOf fs with
       | Except.ok st => st == "success" || st == "completed" || st == "done"
       | Except.error _ => false
     | _ => false)

/-- Explicit failure marker of a HeyGen payload per the spec: the data object
carries `status == "failed"`. -/
def heygenFailureMarker (response : List (String × Json)) : Bool :=
  match dictGet response "data" (Json.obj []) with
  | Json.obj fs => decide (dictGet fs "status" (Json.str "unknown") = Json.str "failed")
  | _ => false

/-- Explicit success marker of a HeyGen payload per the spec: the data object
carries `status == "completed"`. -/
def heygenSuccessMarker (response : List (String × Json)) : Bool :=
  match dictGet response "data" (Json.obj []) with
  | Json.obj fs => decide (dictGet fs "status" (Json.str "unknown") = Json.str "completed")
  | _ => false

/-! Helper lemmas shared by the claim theorems below. -/

lemma parse_veo_non200 (response : List (String × Json))
    (h : jsonEqInt (dictGet response "code" Json.null) 200 = false) :
    parse_veo_status response = Except.ok ⟨"pending", Json.null, Json.null⟩ := by
  simp only [parse_veo_status]
  rw [if_pos (by simp [h])]
  split_ifs <;> rfl

lemma parse_veo_empty_data (response : List (String × Json))
    (h2 : (dictGet response "data" (Json.obj [])).truthy = false) :
    parse_veo_status response = Except.ok ⟨"pending", Json.null, Json.null⟩ := by
  by_cases h200 : jsonEqInt (dictGet response "code" Json.null) 200 = true
  · simp only [parse_veo_status]
    rw [if_neg (by simp [h200]), if_pos (by simp [h2])]
  · exact parse_veo_non200 response (by simpa using h200)

lemma parse_veo_failed_marker (response : List (String × Json)) (r : ParseResult)
    (h : parse_veo_status response = Except.ok r) (hs : r.status = "failed") :
    veoFailureMarker response = true := by
  by_cases h200 : jsonEqInt (dictGet response "code" Json.null) 200 = true
  · simp only [parse_veo_status] at h
    rw [if_neg (by simp [h200])] at h
    by_cases hd : (dictGet response "data" (Json.obj [])).truthy = true
    · rw [if_neg (by simp [hd])] at h
      unfold veoFailureMarker
      cases hdata : dictGet response "data" (Json.obj []) with
      | obj fs =>
        rw [hdata] at h
        dsimp only at h
        simp only [h200, hdata, Bool.true_and]
        by_cases h1 : jsonEqInt (dictGet fs "successFlag" Json.null) 1 = true
        · rw [if_pos h1] at h
          exfalso
          split at h
          · exact Except.noConfusion h
          · split at h
            · exact Except.noConfusion h
            · split at h <;>
                (injection h with h2; subst h2; dsimp only at hs; exact absurd hs (by decide))
        · rw [if_neg h1] at h
          by_cases h0 : jsonEqInt (dictGet fs "successFlag" Json.null) 0 = true
          · rw [if_pos h0] at h
            simp only [h0, Bool.true_and]
            by_cases hm : (pyOr (dictGet fs "errorMessage" Json.null)
                (dictGet fs "errorCode" Json.null)).truthy = true
            · exact hm
            · rw [if_neg hm] at h
              injection h with h2
              subst h2
              dsimp only at hs
              exact absurd hs (by decide)
          · rw [if_neg h0] at h
            injection h with h2
            subst h2
            dsimp only at hs
            exact absurd hs (by decide)
      | null => rw [hdata] at h; exact Except.noConfusion h
      | bool b => rw [hdata] at h; exact Except.noConfusion h
      | num n => rw [hdata] at h; exact Except.noConfusion h
      | str s => rw [hdata] at h; exact Except.noConfusion h
      | arr xs => rw [hdata] at h; exact Except.noConfusion h
    · rw [if_pos (by simp [hd])] at h
      injection h with h2
      subst h2
      dsimp only at hs
      exact absurd hs (by decide)
  · rw [parse_veo_non200 response (by simpa using h200)] at h
    injection h with h2
    subst h2
    dsimp only at hs
    exact absurd hs (by decide)


lemma parse_veo_completed_marker (response : List (String × Json)) (r : ParseResult)
    (h : parse_veo_status response = Except.ok r) (hs : r.status = "completed") :
    veoSuccessMarker response = true ∧ r.video_url.truthy = true := by
  by_cases h200 : jsonEqInt (dictGet response "code" Json.null) 200 = true
  · simp only [parse_veo_status] at h
    rw [if_neg (by simp [h200])] at h
    by_cases hd : (dictGet response "data" (Json.obj [])).truthy = true
    · rw [if_neg (by simp [hd])] at h
      unfold veoSuccessMarker
      cases hdata : dictGet response "data" (Json.obj []) with
      | obj fs =>
        rw [hdata] at h
        dsimp only at h
        simp only [h200, hdata, Bool.true_and]
        by_cases h1 : jsonEqInt (dictGet fs "successFlag" Json.null) 1 = true
        · rw [if_pos h1] at h
          refine ⟨h1, ?_⟩
          split at h
          · exact Except.noConfusion h
          · split at h
            · exact Except.noConfusion h
            · split at h
              · next hvu =>
                  injection h with h2
                  subst h2
                  exact hvu
              · injection h with h2
                subst h2
                dsimp only at hs
                exact absurd hs (by decide)
        · rw [if_neg h1] at h
          exfalso
          by_cases h0 : jsonEqInt (dictGet fs "successFlag" Json.null) 0 = true
          · rw [if_pos h0] at h
            split at h <;>
              (injection h with h2; subst h2; dsimp only at hs; exact absurd hs (by decide))
          · rw [if_neg h0] at h
            injection h with h2
            subst h2
            dsimp only at hs
            exact absurd hs (by decide)
      | null => rw [hdata] at h; exact Except.noConfusion h
      | bool b => rw [hdata] at h; exact Except.noConfusion h
      | num n => rw [hdata] at h; exact Except.noConfusion h
      | str s => rw [hdata] at h; exact Except.noConfusion h
      | arr xs => rw [hdata] at h; exact Except.noConfusion h
    · rw [if_pos (by simp [hd])] at h
      injection h with h2
      subst h2
      dsimp only at hs
      exact absurd hs (by decide)
  · rw [parse_veo_non200 response (by simpa using h200)] at h
    injection h with h2
    subst h2
    dsimp only at hs
    exact absurd hs (by decide)

lemma parse_sora_non200 (response : List (String × Json))
    (h : jsonEqInt (dictGet response "code" Json.null) 200 = false) :
    parse_sora_status response = Except.ok ⟨"pending", Json.null, Json.null⟩ := by
  simp only [parse_sora_status]
  rw [if_pos (by simp [h])]

lemma parse_sora_failed_marker (response : List (String × Json)) (r : ParseResult)
    (h : parse_sora_status response = Except.ok r) (hs : r.status = "failed") :
    soraFailureMarker response = true := by
  by_cases h200 : jsonEqInt (dictGet response "code" Json.null) 200 = true
  · simp only [parse_sora_status] at h
    rw [if_neg (by simp [h200])] at h
    cases hdata : dictGet response "data" (Json.obj []) with
    | obj fs =>
      rw [hdata] at h
      dsimp only at h
      unfold soraFailureMarker
      simp only [h200, hdata, Bool.true_and]
      cases hst : soraStateOf fs with
      | error e => rw [hst] at h; exact Except.noConfusion h
      | ok state =>
        rw [hst] at h
        dsimp only at h
        by_cases hsucc : state = "success" ∨ state = "completed" ∨ state = "done"
        · rw [if_pos hsucc] at h
          exfalso
          split at h
          · exact Except.noConfusion h
          · split at h
            · exact Except.noConfusion h
            · split at h
              · exact Except.noConfusion h
              · split at h <;> split at h <;>
                  (injection h with h2; subst h2; dsimp only at hs; exact absurd hs (by decide))
        · rw [if_neg hsucc] at h
          by_cases hfail : state = "failed" ∨ state = "fail" ∨ state = "error"
          · rcases hfail with hf | hf | hf <;> simp [hf]
          · rw [if_neg hfail] at h
            injection h with h2
            subst h2
            dsimp only at hs
            exact absurd hs (by decide)
    | null => rw [hdata] at h; exact Except.noConfusion h
    | bool b => rw [hdata] at h; exact Except.noConfusion h
    | num n => rw [hdata] at h; exact Except.noConfusion h
    | str s => rw [hdata] at h; exact Except.noConfusion h
    | arr xs => rw [hdata] at h; exact Except.noConfusion h
  · rw [parse_sora_non200 response (by simpa using h200)] at h
    injection h with h2
    subst h2
    dsimp only at hs
    exact absurd hs (by decide)

lemma parse_sora_completed_marker (response : List (String × Json)) (r : ParseResult)
    (h : parse_sora_status response = Except.ok r) (hs : r.status = "completed") :
    soraSuccessMarker response = true ∧ r.video_url.truthy = true := by
  by_cases h200 : jsonEqInt (dictGet response "code" Json.null) 200 = true
  · simp only [parse_sora_status] at h
    rw [if_neg (by simp [h200])] at h
    cases hdata : dictGet response "data" (Json.obj []) with
    | obj fs =>
      rw [hdata] at h
      dsimp only at h
      unfold soraSuccessMarker
      simp only [h200, hdata, Bool.true_and]
      cases hst : soraStateOf fs with
      | error e => rw [hst] at h; exact Except.noConfusion h
      | ok state =>
        rw [hst] at h
        dsimp only at h
        by_cases hsucc : state = "success" ∨ state = "completed" ∨ state = "done"
        · rw [if_pos hsucc] at h
          refine ⟨by rcases hsucc with hf | hf | hf <;> simp [hf], ?_⟩
          split at h
          · exact Except.noConfusion h
          · split at h
            · exact Except.noConfusion h
            · split at h
              · exact Except.noConfusion h
              · split at h <;> split at h
                case _ hvu =>
                  injection h with h2
                  subst h2
                  dsimp only at hs ⊢
                  exact hvu
                case _ =>
                  injection h with h2
                  subst h2
                  dsimp only at hs
                  exact absurd hs (by decide)
                case _ hvu =>
                  injection h with h2
                  subst h2
                  dsimp only at hs ⊢
                  exact hvu
                case _ =>
                  injection h with h2
                  subst h2
                  dsimp only at hs
                  exact absurd hs (by decide)
        · rw [if_neg hsucc] at h
          exfalso
          by_cases hfail : state = "failed" ∨ state = "fail" ∨ state = "error"
          · rw [if_pos hfail] at h
            injection h with h2
            subst h2
            dsimp only at hs
            exact absurd hs (by decide)
          · rw [if_neg hfail] at h
            injection h with h2
            subst h2
            dsimp only at hs
            exact absurd hs (by decide)
    | null => rw [hdata] at h; exact Except.noConfusion h
    | bool b => rw [hdata] at h; exact Except.noConfusion h
    | num n => rw [hdata] at h; exact Except.noConfusion h
    | str s => rw [hdata] at h; exact Except.noConfusion h
    | arr xs => rw [hdata] at h; exact Except.noConfusion h
  · rw [parse_sora_non200 response (by simpa using h200)] at h
    injection h with h2
    subst h2
    dsimp only at hs
    exact absurd hs (by decide)

lemma parse_heygen_failed_marker (response : List (String × Json)) (r : ParseResult)
    (h : parse_heygen_status response = Except.ok r) (hs : r.status = "failed") :
    heygenFailureMarker response = true := by
  simp only [parse_heygen_status] at h
  unfold heygenFailureMarker
  cases hdata : dictGet response "data" (Json.obj []) with
  | obj fs =>
    rw [hdata] at h
    dsimp only at h
    by_cases hc : dictGet fs "status" (Json.str "unknown") = Json.str "completed"
    · rw [if_pos hc] at h
      injection h with h2
      subst h2
      dsimp only at hs
      exact absurd hs (by decide)
    · rw [if_neg hc] at h
      by_cases hf : dictGet fs "status" (Json.str "unknown") = Json.str "failed"
      · simp [hf]
      · rw [if_neg hf] at h
        injection h with h2
        subst h2
        dsimp only at hs
        exact absurd hs (by decide)
  | null => rw [hdata] at h; exact Except.noConfusion h
  | bool b => rw [hdata] at h; exact Except.noConfusion h
  | num n => rw [hdata] at h; exact Except.noConfusion h
  | str s => rw [hdata] at h; exact Except.noConfusion h
  | arr xs => rw [hdata] at h; exact Except.noConfusion h

lemma parse_heygen_completed_marker (response : List (String × Json)) (r : ParseResult)
    (h : parse_heygen_status response = Except.ok r) (hs : r.status = "completed") :
    heygenSuccessMarker response = true := by
  simp only [parse_heygen_status] at h
  unfold heygenSuccessMarker
  cases hdata : dictGet response "data" (Json.obj []) with
  | obj fs =>
    rw [hdata] at h
    dsimp only at h
    by_cases hc : dictGet fs "status" (Json.str "unknown") = Json.str "completed"
    · simp [hc]
    · rw [if_neg hc] at h
      by_cases hf : dictGet fs "status" (Json.str "unknown") = Json.str "failed"
      · rw [if_pos hf] at h
        injection h with h2
        subst h2
        dsimp only at hs
        exact absurd hs (by decide)
      · rw [if_neg hf] at h
        injection h with h2
        subst h2
        dsimp only at hs
        exact absurd hs (by decide)
  | null => rw [hdata] at h; exact Except.noConfusion h
  | bool b => rw [hdata] at h; exact Except.noConfusion h
  | num n => rw [hdata] at h; exact Except.noConfusion h
  | str s => rw [hdata] at h; exact Except.noConfusion h
  | arr xs => rw [hdata] at h; exact Except.noConfusion h


lemma parse_status_error_payload (task : VideoTask) (msg : String) :
    parse_status task [("error", Json.str msg)] =
      Except.ok ⟨"pending", Json.null, Json.null⟩ := by
  unfold parse_status
  split_ifs <;> rfl

lemma processTask_timeout (gw : String → String → GatewayResult) (sendFails : Event → Bool)
    (now : Int) (tasks : Registry) (task : VideoTask)
    (h : now - task.created_at > timeoutSeconds) :
    processTask gw sendFails now tasks task =
      Except.ok (remove_task tasks task.task_id,
        [Event.sendMessageTimeout task.chat_id task.task_id]) := by
  unfold processTask
  rw [if_pos h]
  rfl

lemma processTask_gateway_exn (gw : String → String → GatewayResult) (sendFails : Event → Bool)
    (now : Int) (tasks : Registry) (task : VideoTask) (msg : String)
    (ht : ¬ now - task.created_at > timeoutSeconds)
    (hgw : gw task.model task.task_id = GatewayResult.exn msg) :
    processTask gw sendFails now tasks task = Except.ok (tasks, []) := by
  unfold processTask
  rw [if_neg ht]
  have hc : check_task_status gw task = [("error", Json.str msg)] := by
    unfold check_task_status
    rw [hgw]
  rw [hc, parse_status_error_payload]
  dsimp only
  rw [if_neg (by decide), if_neg (by decide)]

lemma processTask_pending (gw : String → String → GatewayResult) (sendFails : Event → Bool)
    (now : Int) (tasks : Registry) (task : VideoTask) (r : ParseResult)
    (ht : ¬ now - task.created_at > timeoutSeconds)
    (hp : parse_status task (check_task_status gw task) = Except.ok r)
    (hs : r.status = "pending") :
    processTask gw sendFails now tasks task = Except.ok (tasks, []) := by
  unfold processTask
  rw [if_neg ht, hp]
  dsimp only
  rw [if_neg (fun hc => absurd (hs.symm.trans hc.1) (by decide)),
    if_neg (fun hc => absurd (hs.symm.trans hc.1) (by decide))]

lemma processTask_registry_indep (gw : String → String → GatewayResult)
    (sf sf2 : Event → Bool) (now : Int) (tasks : Registry) (task : VideoTask) :
    Except.map Prod.fst (processTask gw sf now tasks task) =
      Except.map Prod.fst (processTask gw sf2 now tasks task) := by
  unfold processTask
  split_ifs with h
  · rfl
  · cases parse_status task (check_task_status gw task) with
    | error e => rfl
    | ok r => dsimp only; split_ifs <;> rfl

lemma lookup_remove_self (tasks : Registry) (i : String) :
    lookupTask (remove_task tasks i) i = none := by
  induction tasks with
  | nil => rfl
  | cons p rest ih =>
    unfold remove_task lookupTask at ih ⊢
    by_cases h : p.1 = i
    · rw [List.filter_cons_of_neg (by simp [h])]
      exact ih
    · rw [List.filter_cons_of_pos (by simp [h]), List.find?_cons_of_neg _ (by simp [h])]
      exact ih

lemma lookup_remove_absent (tasks : Registry) (i j : String)
    (h : lookupTask tasks i = none) :
    lookupTask (remove_task tasks j) i = none := by
  induction tasks with
  | nil => rfl
  | cons p rest ih =>
    unfold lookupTask at h
    unfold remove_task lookupTask at ih ⊢
    by_cases hp : p.1 = i
    · rw [List.find?_cons_of_pos _ (by simp [hp])] at h
      exact absurd h (by simp)
    · rw [List.find?_cons_of_neg _ (by simp [hp])] at h
      by_cases hj : p.1 = j
      · rw [List.filter_cons_of_neg (by simp [hj])]
        exact ih h
      · rw [List.filter_cons_of_pos (by simp [hj]), List.find?_cons_of_neg _ (by simp [hp])]
        exact ih h


lemma processTask_preserves_absent (gw : String → String → GatewayResult)
    (sf : Event → Bool) (now : Int) (tasks : Registry) (task : VideoTask)
    (t2 : Registry) (evs : List Event) (i : String)
    (h : processTask gw sf now tasks task = Except.ok (t2, evs))
    (habs : lookupTask tasks i = none) : lookupTask t2 i = none := by
  unfold processTask at h
  split_ifs at h with ht
  · injection h with h2
    cases h2
    exact lookup_remove_absent tasks i task.task_id habs
  · cases hp : parse_status task (check_task_status gw task) with
    | error e => rw [hp] at h; exact Except.noConfusion h
    | ok r =>
      rw [hp] at h
      dsimp only at h
      split_ifs at h <;> (injection h with h2; cases h2)
      · exact lookup_remove_absent tasks i task.task_id habs
      · exact lookup_remove_absent tasks i task.task_id habs
      · exact habs

lemma processTask_delivery_removes (gw : String → String → GatewayResult)
    (sf : Event → Bool) (now : Int) (tasks : Registry) (task : VideoTask)
    (t2 : Registry) (evs : List Event)
    (h : processTask gw sf now tasks task = Except.ok (t2, evs))
    (hevs : evs ≠ []) : lookupTask t2 task.task_id = none := by
  unfold processTask at h
  split_ifs at h with ht
  · injection h with h2
    cases h2
    exact lookup_remove_self tasks task.task_id
  · cases hp : parse_status task (check_task_status gw task) with
    | error e => rw [hp] at h; exact Except.noConfusion h
    | ok r =>
      rw [hp] at h
      dsimp only at h
      split_ifs at h <;> (injection h with h2; cases h2)
      · exact lookup_remove_self tasks task.task_id
      · exact lookup_remove_self tasks task.task_id
      · exact absurd rfl hevs

lemma processTask_success_events (gw : String → String → GatewayResult)
    (sf : Event → Bool) (now : Int) (tasks : Registry) (task : VideoTask)
    (t2 : Registry) (evs : List Event) (c : Int) (i : String) (u : Json)
    (h : processTask gw sf now tasks task = Except.ok (t2, evs))
    (hm : Event.sendVideo c i u ∈ evs ∨ Event.sendMessageSuccess c i u ∈ evs) :
    u.truthy = true := by
  unfold processTask at h
  split_ifs at h with ht
  · injection h with h2
    cases h2
    unfold notify_timeout at hm
    rcases hm with hm | hm <;> simp at hm
  · cases hp : parse_status task (check_task_status gw task) with
    | error e => rw [hp] at h; exact Except.noConfusion h
    | ok r =>
      rw [hp] at h
      dsimp only at h
      split_ifs at h with hc hf <;> (injection h with h2; cases h2)
      · unfold notify_success at hm
        by_cases hsf : sf (Event.sendVideo task.chat_id task.task_id r.video_url) = true
      
        · rw [if_pos hsf] at hm
          rcases hm with hm | hm <;> simp at hm <;>
            (obtain ⟨-, -, h3⟩ := hm; subst h3; exact hc.2)
        · rw [if_neg hsf] at hm
          rcases hm with hm | hm <;> simp at hm
          · obtain ⟨-, -, h3⟩ := hm
            subst h3
            exact hc.2
      · unfold notify_failure at hm
        rcases hm with hm | hm <;> simp at hm
      · rcases hm with hm | hm <;> simp at hm

lemma pollTasksGo_preserves_absent (gw : String → String → GatewayResult)
    (sf : Event → Bool) (now : Int) (snapshot : List VideoTask) :
    ∀ (tasks : Registry) (events : List Event) (i : String),
      lookupTask tasks i = none →
      lookupTask (pollTasksGo gw sf now snapshot tasks events).tasks i = none := by
  induction snapshot with
  | nil => intro tasks events i h; exact h
  | cons task rest ih =>
    intro tasks events i h
    unfold pollTasksGo
    cases hpt : processTask gw sf now tasks task with
    | error e => exact h
    | ok pr =>
      obtain ⟨t2, evs⟩ := pr
      exact ih t2 (events ++ evs) i (processTask_preserves_absent gw sf now tasks task t2 evs i hpt h)

lemma pollTick_preserves_absent (gw : String → String → GatewayResult)
    (sf : Event → Bool) (now : Int) (tasks : Registry) (i : String)
    (h : lookupTask tasks i = none) :
    lookupTask (pollTick gw sf now tasks).tasks i = none :=
  pollTasksGo_preserves_absent gw sf now (tasks.map Prod.snd) tasks [] i h

lemma processTask_subtitles_irrelevant (gw : String → String → GatewayResult)
    (sf : Event → Bool) (now : Int) (tasks : Registry) (task : VideoTask) (sd : Json) :
    processTask gw sf now tasks { task with subtitles_data := sd } =
      processTask gw sf now tasks task := rfl


lemma lookup_none_keys (tasks : Registry) (i : String)
    (h : lookupTask tasks i = none) : ∀ p ∈ tasks, ¬(p.1 == i) = true := by
  unfold lookupTask at h
  exact List.find?_eq_none.mp (Option.map_eq_none'.mp h)

lemma add_task_absent (tasks : Registry) (t : VideoTask)
    (h : lookupTask tasks t.task_id = none) :
    add_task tasks t = tasks ++ [(t.task_id, t)] := by
  unfold add_task
  rw [if_neg]
  rw [List.any_eq_true]
  rintro ⟨p, hp, hkey⟩
  exact lookup_none_keys tasks t.task_id h p hp hkey

lemma add_task_overwrites (tasks : Registry) (t1 t2 : VideoTask)
    (hid : t1.task_id = t2.task_id)
    (habs : lookupTask tasks t1.task_id = none) :
    add_task (add_task tasks t1) t2 = tasks ++ [(t2.task_id, t2)] := by
  have habs2 : lookupTask tasks t2.task_id = none := hid ▸ habs
  have hkeys := lookup_none_keys tasks t2.task_id habs2
  rw [add_task_absent tasks t1 habs]
  unfold add_task
  rw [if_pos (by simp [List.any_append, hid])]
  rw [List.map_append]
  congr 1
  · rw [List.map_congr_left (fun p hp => if_neg (by simp [hkeys p hp]))]
    exact List.map_id tasks
  · simp [hid]

lemma lookup_append_single (tasks : Registry) (t : VideoTask)
    (habs : lookupTask tasks t.task_id = none) :
    lookupTask (tasks ++ [(t.task_id, t)]) t.task_id = some t := by
  unfold lookupTask at habs ⊢
  rw [List.find?_append, Option.map_eq_none'.mp habs]
  simp

lemma countP_append_single (tasks : Registry) (i : String) (t : VideoTask)
    (habs : lookupTask tasks i = none) :
    (tasks ++ [(i, t)]).countP (fun p => p.1 == i) = 1 := by
  rw [List.countP_append]
  rw [List.countP_eq_zero.mpr (lookup_none_keys tasks i habs)]
  simp [List.countP_cons]


lemma processTask_error_from_parse (gw : String → String → GatewayResult)
    (sf : Event → Bool) (now : Int) (tasks : Registry) (task : VideoTask) (e : PyErr)
    (h : processTask gw sf now tasks task = Except.error e) :
    parse_status task (check_task_status gw task) = Except.error e := by
  unfold processTask at h
  split_ifs at h
  cases hp : parse_status task (check_task_status gw task) with
  | error e2 =>
    rw [hp] at h
    dsimp only at h
    injection h with h2
    rw [h2]
  | ok r =>
    rw [hp] at h
    dsimp only at h
    split_ifs at h

lemma processTask_completed_empty (gw : String → String → GatewayResult)
    (sf : Event → Bool) (now : Int) (tasks : Registry) (task : VideoTask) (r : ParseResult)
    (ht : ¬ now - task.created_at > timeoutSeconds)
    (hp : parse_status task (check_task_status gw task) = Except.ok r)
    (hs : r.status = "completed") (hu : r.video_url.truthy = false) :
    processTask gw sf now tasks task = Except.ok (tasks, []) := by
  unfold processTask
  rw [if_neg ht, hp]
  dsimp only
  rw [if_neg (fun hc => by rw [hu] at hc; exact Bool.false_ne_true hc.2),
    if_neg (fun hc => absurd (hs.symm.trans hc.1) (by decide))]

lemma pollTick_singleton_pending (gw : String → String → GatewayResult)
    (sf : Event → Bool) (now : Int) (task : VideoTask) (r : ParseResult)
    (ht : ¬ now - task.created_at > timeoutSeconds)
    (hp : parse_status task (check_task_status gw task) = Except.ok r)
    (hs : r.status = "pending") :
    pollTick gw sf now [(task.task_id, task)] = ⟨[(task.task_id, task)], [], none⟩ := by
  have h1 := processTask_pending gw sf now [(task.task_id, task)] task r ht hp hs
  simp only [pollTick, pollTasksGo, List.map_cons, List.map_nil, h1, List.nil_append]

lemma parse_heygen_completed_full (response : List (String × Json)) (r : ParseResult)
    (h : parse_heygen_status response = Except.ok r) (hs : r.status = "completed") :
    heygenSuccessMarker response = true ∧
      r.video_url = (match dictGet response "data" (Json.obj []) with
        | Json.obj fs => dictGet fs "video_url" Json.null
        | _ => Json.null) := by
  simp only [parse_heygen_status] at h
  unfold heygenSuccessMarker
  cases hdata : dictGet response "data" (Json.obj []) with
  | obj fs =>
    rw [hdata] at h
    dsimp only at h
    by_cases hc : dictGet fs "status" (Json.str "unknown") = Json.str "completed"
    · rw [if_pos hc] at h
      injection h with h2
      subst h2
      exact ⟨by simp [hc], rfl⟩
    · rw [if_neg hc] at h
      by_cases hf : dictGet fs "status" (Json.str "unknown") = Json.str "failed"
      · rw [if_pos hf] at h
        injection h with h2
        subst h2
        dsimp only at hs
        exact absurd hs (by decide)
      · rw [if_neg hf] at h
        injection h with h2
        subst h2
        dsimp only at hs
        exact absurd hs (by decide)
  | null => rw [hdata] at h; exact Except.noConfusion h
  | bool b => rw [hdata] at h; exact Except.noConfusion h
  | num n => rw [hdata] at h; exact Except.noConfusion h
  | str s => rw [hdata] at h; exact Except.noConfusion h
  | arr xs => rw [hdata] at h; exact Except.noConfusion h


/-! Claim theorems.  Each claim of the specification audit is settled by
exactly one theorem below; counterexample and witness theorems accompany the
corrected claims and the theorems with hypotheses. -/

/-- C1: a raw status payload without an explicit, unambiguous failure marker
is never classified `failed` by a per-provider normalizer.  Concretely: any
non-200 envelope (including HTTP/code 422 with `record is null` or
`record status is not success`) and any falsy `data` field yield `pending`
for the Veo parser, any non-200 envelope yields `pending` for the Sora
parser, and whenever any of the three parsers returns `failed`, the payload
carries the corresponding explicit failure marker. -/
theorem C1_conservative_failure_classification :
    (∀ response, jsonEqInt (dictGet response "code" Json.null) 200 = false →
      parse_veo_status response = Except.ok ⟨"pending", Json.null, Json.null⟩) ∧
    (∀ response, jsonEqInt (dictGet response "code" Json.null) 200 = false →
      parse_sora_status response = Except.ok ⟨"pending", Json.null, Json.null⟩) ∧
    (∀ response, (dictGet response "data" (Json.obj [])).truthy = false →
      parse_veo_status response = Except.ok ⟨"pending", Json.null, Json.null⟩) ∧
    (∀ response r, parse_veo_status response = Except.ok r → r.status = "failed" →
      veoFailureMarker response = true) ∧
    (∀ response r, parse_sora_status response = Except.ok r → r.status = "failed" →
      soraFailureMarker response = true) ∧
    (∀ response r, parse_heygen_status response = Except.ok r → r.status = "failed" →
      heygenFailureMarker response = true) :=
  ⟨parse_veo_non200, parse_sora_non200, parse_veo_empty_data,
   parse_veo_failed_marker, parse_sora_failed_marker, parse_heygen_failed_marker⟩

/-- C1 witness: the 422 `record is null` payload is concretely classified
`pending` by the Veo normalizer, via the theorem. -/
theorem C1_witness :
    jsonEqInt (dictGet [("code", Json.num 422), ("msg", Json.str "record is null")]
      "code" Json.null) 200 = false ∧
    parse_veo_status [("code", Json.num 422), ("msg", Json.str "record is null")] =
      Except.ok ⟨"pending", Json.null, Json.null⟩ :=
  ⟨by decide, C1_conservative_failure_classification.1 _ (by decide)⟩

/-- C2 counterexample: the claim fails for the HeyGen normalizer, which
returns `completed` together with an empty (`None`) result locator when the
payload says `status == "completed"` but carries no `video_url`. -/
theorem C2_counterexample :
    parse_heygen_status [("data", Json.obj [("status", Json.str "completed")])] =
      Except.ok ⟨"completed", Json.null, Json.null⟩ ∧ Json.null.truthy = false := by
  decide

/-- C2 amended: the Veo and Sora normalizers return `completed` only with an
explicit success marker and a non-empty result locator, probing the candidate
locator fields in the fixed priority order of the source (Veo:
`data.response.resultUrls` then `data.resultUrls`; Sora: `resultJson` as a
JSON string, `resultJson` as an object, `videoInfo.videoUrl`, then the direct
url fields); the HeyGen normalizer returns `completed` exactly on its
explicit success marker but forwards `data.video_url` unchecked, which may
be empty. -/
theorem C2_amended_success_and_priority :
    (∀ response r, parse_veo_status response = Except.ok r → r.status = "completed" →
      veoSuccessMarker response = true ∧ r.video_url.truthy = true) ∧
    (∀ response r, parse_sora_status response = Except.ok r → r.status = "completed" →
      soraSuccessMarker response = true ∧ r.video_url.truthy = true) ∧
    (∀ response r, parse_heygen_status response = Except.ok r → r.status = "completed" →
      heygenSuccessMarker response = true ∧
        r.video_url = (match dictGet response "data" (Json.obj []) with
          | Json.obj fs => dictGet fs "video_url" Json.null
          | _ => Json.null)) ∧
    parse_veo_status [("code", Json.num 200),
      ("data", Json.obj [("successFlag", Json.num 1),
        ("response", Json.obj [("resultUrls", Json.arr [Json.str "U", Json.str "V"])]),
        ("resultUrls", Json.arr [Json.str "W"])])] =
      Except.ok ⟨"completed", Json.str "U", Json.null⟩ ∧
    parse_veo_status [("code", Json.num 200),
      ("data", Json.obj [("successFlag", Json.num 1),
        ("response", Json.obj [("resultUrls", Json.arr [])]),
        ("resultUrls", Json.arr [Json.str "W"])])] =
      Except.ok ⟨"completed", Json.str "W", Json.null⟩ ∧
    parse_sora_status [("code", Json.num 200),
      ("data", Json.obj [("state", Json.str "SUCCESS"),
        ("resultJson", Json.str "\x7b\"resultUrls\": [\"A\"]\x7d"),
        ("videoInfo", Json.obj [("videoUrl", Json.str "B")]),
        ("url", Json.str "C")])] =
      Except.ok ⟨"completed", Json.str "A", Json.null⟩ ∧
    parse_sora_status [("code", Json.num 200),
      ("data", Json.obj [("status", Json.str "done"),
        ("resultJson", Json.obj [("resultUrls", Json.arr [Json.str "A2"])]),
        ("videoInfo", Json.obj [("videoUrl", Json.str "B")]),
        ("url", Json.str "C")])] =
      Except.ok ⟨"completed", Json.str "A2", Json.null⟩ ∧
    parse_sora_status [("code", Json.num 200),
      ("data", Json.obj [("taskStatus", Json.str "success"),
        ("videoInfo", Json.obj [("videoUrl", Json.str "B")]),
        ("url", Json.str "C")])] =
      Except.ok ⟨"completed", Json.str "B", Json.null⟩ ∧
    parse_sora_status [("code", Json.num 200),
      ("data", Json.obj [("state", Json.str "success"), ("video_url", Json.str "C")])] =
      Except.ok ⟨"completed", Json.str "C", Json.null⟩ :=
  ⟨parse_veo_completed_marker, parse_sora_completed_marker, parse_heygen_completed_full,
   by decide, by decide, by decide, by decide, by decide, by decide⟩

/-- C2 witness: a concrete successful Veo payload exercises the
marker-and-locator direction of the theorem. -/
theorem C2_witness :
    veoSuccessMarker [("code", Json.num 200),
      ("data", Json.obj [("successFlag", Json.num 1),
        ("resultUrls", Json.arr [Json.str "R"])])] = true ∧
    (Json.str "R").truthy = true :=
  C2_amended_success_and_priority.1
    [("code", Json.num 200),
     ("data", Json.obj [("successFlag", Json.num 1), ("resultUrls", Json.arr [Json.str "R"])])]
    ⟨"completed", Json.str "R", Json.null⟩ (by decide) rfl

/-- C3 counterexample: the timeout budget is not per-`providerKind` and is
not longer for slower providers: the slow `veo3` (Quality) kind and the fast
`veo3_fast` kind share the identical 1800-second boundary — at 1800 seconds
neither job is finalized, at 1801 seconds both are. -/
theorem C3_counterexample :
    processTask (fun _ _ => GatewayResult.exn "net") (fun _ => false) 1800 []
      ⟨"a", 1, 1, "veo3", 0, "", "pending", Json.null, Json.null, Json.null⟩ =
      Except.ok ([], []) ∧
    processTask (fun _ _ => GatewayResult.exn "net") (fun _ => false) 1800 []
      ⟨"b", 1, 1, "veo3_fast", 0, "", "pending", Json.null, Json.null, Json.null⟩ =
      Except.ok ([], []) ∧
    processTask (fun _ _ => GatewayResult.exn "net") (fun _ => false) 1801 []
      ⟨"a", 1, 1, "veo3", 0, "", "pending", Json.null, Json.null, Json.null⟩ =
      Except.ok ([], [Event.sendMessageTimeout 1 "a"]) ∧
    processTask (fun _ _ => GatewayResult.exn "net") (fun _ => false) 1801 []
      ⟨"b", 1, 1, "veo3_fast", 0, "", "pending", Json.null, Json.null, Json.null⟩ =
      Except.ok ([], [Event.sendMessageTimeout 1 "b"]) := by
  decide

/-- C3 amended: the timeout budget is the same 30 minutes (1800 seconds) for
every provider kind; when `now - createdAt` exceeds it, the per-job step
finalizes the job with the distinct timeout notification and removes it from
the registry without consulting the gateway (the outcome is identical for
any two gateway behaviours). -/
theorem C3_amended_uniform_timeout :
    ∀ (gw gw2 : String → String → GatewayResult) (sf : Event → Bool) (now : Int)
      (tasks : Registry) (task : VideoTask),
      now - task.created_at > timeoutSeconds →
      processTask gw sf now tasks task =
        Except.ok (remove_task tasks task.task_id,
          [Event.sendMessageTimeout task.chat_id task.task_id]) ∧
      processTask gw sf now tasks task = processTask gw2 sf now tasks task ∧
      lookupTask (remove_task tasks task.task_id) task.task_id = none :=
  fun gw gw2 sf now tasks task h =>
    ⟨processTask_timeout gw sf now tasks task h,
     (processTask_timeout gw sf now tasks task h).trans
       (processTask_timeout gw2 sf now tasks task h).symm,
     lookup_remove_self tasks task.task_id⟩

/-- C3 witness: a HeyGen job whose 1800-second budget has elapsed is
finalized with the timeout notification and removed, via the theorem. -/
theorem C3_witness :
    (2000 : Int) - 0 > timeoutSeconds ∧
    processTask (fun _ _ => GatewayResult.exn "net") (fun _ => false) 2000 []
        ⟨"w3", 5, 5, "heygen", 0, "", "pending", Json.null, Json.null, Json.null⟩ =
      Except.ok (remove_task [] "w3", [Event.sendMessageTimeout 5 "w3"]) :=
  ⟨by decide,
   (C3_amended_uniform_timeout (fun _ _ => GatewayResult.exn "net")
     (fun _ _ => GatewayResult.ok []) (fun _ => false) 2000 []
     ⟨"w3", 5, 5, "heygen", 0, "", "pending", Json.null, Json.null, Json.null⟩
     (by decide)).1⟩

/-- C4: a job observed in a terminal outcome is removed from the registry in
the same per-job step regardless of whether the notification attempts
succeed (the resulting registry is independent of the send-failure oracle),
and an id absent from the registry is never re-introduced by a tick, so a
removed job can never be delivered again. -/
theorem C4_terminal_removal_at_most_once :
    (∀ gw sf now tasks task t2 evs,
      processTask gw sf now tasks task = Except.ok (t2, evs) → evs ≠ [] →
      lookupTask t2 task.task_id = none) ∧
    (∀ gw sf sf2 now tasks task,
      Except.map Prod.fst (processTask gw sf now tasks task) =
        Except.map Prod.fst (processTask gw sf2 now tasks task)) ∧
    (∀ gw sf now tasks i, lookupTask tasks i = none →
      lookupTask (pollTick gw sf now tasks).tasks i = none) :=
  ⟨processTask_delivery_removes, processTask_registry_indep, pollTick_preserves_absent⟩

/-- C4 witness: a concretely delivered HeyGen job is gone from the registry
afterwards, via the theorem. -/
theorem C4_witness :
    processTask
        (fun _ _ => GatewayResult.ok [("data", Json.obj [("status", Json.str "completed"),
          ("video_url", Json.str "V")])])
        (fun _ => false) 0
        [("hw", ⟨"hw", 3, 3, "heygen", 0, "", "pending", Json.null, Json.null, Json.null⟩)]
        ⟨"hw", 3, 3, "heygen", 0, "", "pending", Json.null, Json.null, Json.null⟩ =
      Except.ok ([], [Event.sendVideo 3 "hw" (Json.str "V")]) ∧
    lookupTask ([] : Registry) "hw" = none :=
  ⟨by decide,
   C4_terminal_removal_at_most_once.1
     (fun _ _ => GatewayResult.ok [("data", Json.obj [("status", Json.str "completed"),
       ("video_url", Json.str "V")])])
     (fun _ => false) 0
     [("hw", ⟨"hw", 3, 3, "heygen", 0, "", "pending", Json.null, Json.null, Json.null⟩)]
     ⟨"hw", 3, 3, "heygen", 0, "", "pending", Json.null, Json.null, Json.null⟩
     [] [Event.sendVideo 3 "hw" (Json.str "V")] (by decide) (by decide)⟩

/-- C5 counterexample: the claim fails as stated — a status-parse exception
raised for one job aborts the remainder of the same tick.  Concretely, a
Sora job whose payload is `code 200, data null` raises `AttributeError`; in
a two-job snapshot the following HeyGen job is then not processed at all
(no events, registry untouched), although a tick containing only that
HeyGen job delivers it. -/
theorem C5_counterexample :
    (pollTick
        (fun _ i => if i = "t1" then GatewayResult.ok [("code", Json.num 200), ("data", Json.null)]
          else GatewayResult.ok
            [("data", Json.obj [("status", Json.str "completed"), ("video_url", Json.str "U")])])
        (fun _ => false) 0
        [("t1", ⟨"t1", 1, 1, "sora2", 0, "", "pending", Json.null, Json.null, Json.null⟩),
         ("t2", ⟨"t2", 2, 2, "heygen", 0, "", "pending", Json.null, Json.null, Json.null⟩)]) =
      ⟨[("t1", ⟨"t1", 1, 1, "sora2", 0, "", "pending", Json.null, Json.null, Json.null⟩),
        ("t2", ⟨"t2", 2, 2, "heygen", 0, "", "pending", Json.null, Json.null, Json.null⟩)],
       [], some PyErr.attributeError⟩ ∧
    (pollTick
        (fun _ _ => GatewayResult.ok
          [("data", Json.obj [("status", Json.str "completed"), ("video_url", Json.str "U")])])
        (fun _ => false) 0
        [("t2", ⟨"t2", 2, 2, "heygen", 0, "", "pending", Json.null, Json.null, Json.null⟩)]) =
      ⟨[], [Event.sendVideo 2 "t2" (Json.str "U")], none⟩ := by
  decide

/-- C5 amended: gateway-call failures and notification failures never abort
a tick (a gateway exception leaves the job untouched, and the registry
outcome is independent of the send-failure oracle); the only faults that
escape a per-job step are status-parse exceptions, which abandon the rest of
the current tick while the polling loop itself always proceeds to the next
tick. -/
theorem C5_amended_tick_abort :
    (∀ gw sf now tasks task msg, ¬ now - task.created_at > timeoutSeconds →
      gw task.model task.task_id = GatewayResult.exn msg →
      processTask gw sf now tasks task = Except.ok (tasks, [])) ∧
    (∀ gw sf now tasks task e, processTask gw sf now tasks task = Except.error e →
      parse_status task (check_task_status gw task) = Except.error e) ∧
    (∀ gw sf sf2 now tasks task,
      Except.map Prod.fst (processTask gw sf now tasks task) =
        Except.map Prod.fst (processTask gw sf2 now tasks task)) ∧
    (∀ gw sf times tasks n, pollLoop gw sf times tasks (n + 1) =
      (pollTick (gw n) (sf n) (times n) (pollLoop gw sf times tasks n)).tasks) :=
  ⟨processTask_gateway_exn, processTask_error_from_parse, processTask_registry_indep,
   fun _ _ _ _ _ => rfl⟩

/-- C5 witness: a concrete gateway exception leaves a Sora job untouched,
via the theorem. -/
theorem C5_witness :
    ¬ (100 : Int) - 0 > timeoutSeconds ∧
    processTask (fun _ _ => GatewayResult.exn "boom") (fun _ => false) 100
        [("s1", ⟨"s1", 9, 9, "sora2", 0, "", "pending", Json.null, Json.null, Json.null⟩)]
        ⟨"s1", 9, 9, "sora2", 0, "", "pending", Json.null, Json.null, Json.null⟩ =
      Except.ok ([("s1", ⟨"s1", 9, 9, "sora2", 0, "", "pending", Json.null, Json.null,
        Json.null⟩)], []) :=
  ⟨by decide,
   C5_amended_tick_abort.1 (fun _ _ => GatewayResult.exn "boom") (fun _ => false) 100
     [("s1", ⟨"s1", 9, 9, "sora2", 0, "", "pending", Json.null, Json.null, Json.null⟩)]
     ⟨"s1", 9, 9, "sora2", 0, "", "pending", Json.null, Json.null, Json.null⟩
     "boom" (by decide) rfl⟩

/-- C6: when the gateway call for a job that has not timed out raises, the
per-job step is a no-op: the exception is converted to an `error` payload,
every parser classifies that payload `pending`, the registry is unchanged
and no notification is attempted, so the job is simply re-polled next
tick. -/
theorem C6_gateway_transient :
    ∀ gw sf now tasks task msg,
      ¬ now - task.created_at > timeoutSeconds →
      gw task.model task.task_id = GatewayResult.exn msg →
      processTask gw sf now tasks task = Except.ok (tasks, []) ∧
      check_task_status gw task = [("error", Json.str msg)] ∧
      parse_status task [("error", Json.str msg)] =
        Except.ok ⟨"pending", Json.null, Json.null⟩ :=
  fun gw sf now tasks task msg ht hgw =>
    ⟨processTask_gateway_exn gw sf now tasks task msg ht hgw,
     by unfold check_task_status; rw [hgw],
     parse_status_error_payload task msg⟩

/-- C6 witness: a concrete network exception on a Veo job keeps the job
registered and notifies nobody, via the theorem. -/
theorem C6_witness :
    ¬ (60 : Int) - 0 > timeoutSeconds ∧
    processTask (fun _ _ => GatewayResult.exn "timeout") (fun _ => false) 60
        [("v1", ⟨"v1", 4, 4, "veo3", 0, "", "pending", Json.null, Json.null, Json.null⟩)]
        ⟨"v1", 4, 4, "veo3", 0, "", "pending", Json.null, Json.null, Json.null⟩ =
      Except.ok ([("v1", ⟨"v1", 4, 4, "veo3", 0, "", "pending", Json.null, Json.null,
        Json.null⟩)], []) :=
  ⟨by decide,
   (C6_gateway_transient (fun _ _ => GatewayResult.exn "timeout") (fun _ => false) 60
     [("v1", ⟨"v1", 4, 4, "veo3", 0, "", "pending", Json.null, Json.null, Json.null⟩)]
     ⟨"v1", 4, 4, "veo3", 0, "", "pending", Json.null, Json.null, Json.null⟩
     "timeout" (by decide) rfl).1⟩

/-- C7 counterexample: the claim fails — `add_task` performs a plain dict
assignment, so a second insert with the same `task_id` does not fail and
silently replaces the original job: the registry afterwards holds the
second task, not the first. -/
theorem C7_counterexample :
    add_task (add_task []
        ⟨"T", 1, 1, "sora2", 0, "first", "pending", Json.null, Json.null, Json.null⟩)
        ⟨"T", 1, 1, "sora2", 0, "second", "pending", Json.null, Json.null, Json.null⟩ =
      [("T", ⟨"T", 1, 1, "sora2", 0, "second", "pending", Json.null, Json.null, Json.null⟩)] ∧
    (⟨"T", 1, 1, "sora2", 0, "second", "pending", Json.null, Json.null, Json.null⟩ : VideoTask) ≠
      ⟨"T", 1, 1, "sora2", 0, "first", "pending", Json.null, Json.null, Json.null⟩ := by
  decide

/-- C7 amended: a second insert with an already-present `task_id` succeeds
and silently replaces the stored job in place; the registry afterwards holds
exactly one entry with that id, namely the newly inserted job, exactly as if
only the second insert had happened. -/
theorem C7_amended_silent_replace :
    ∀ (tasks : Registry) (t1 t2 : VideoTask),
      t1.task_id = t2.task_id → lookupTask tasks t1.task_id = none →
      add_task (add_task tasks t1) t2 = add_task tasks t2 ∧
      lookupTask (add_task (add_task tasks t1) t2) t2.task_id = some t2 ∧
      (add_task (add_task tasks t1) t2).countP (fun p => p.1 == t2.task_id) = 1 := by
  intro tasks t1 t2 hid habs
  have habs2 : lookupTask tasks t2.task_id = none := hid ▸ habs
  have e := add_task_overwrites tasks t1 t2 hid habs
  refine ⟨?_, ?_, ?_⟩
  · rw [e, add_task_absent tasks t2 habs2]
  · rw [e]
    exact lookup_append_single tasks t2 habs2
  · rw [e]
    exact countP_append_single tasks t2.task_id t2 habs2

/-- C7 witness: a concrete double insert, via the theorem. -/
theorem C7_witness :
    lookupTask (add_task (add_task []
        ⟨"W", 1, 1, "sora2", 0, "one", "pending", Json.null, Json.null, Json.null⟩)
        ⟨"W", 1, 1, "sora2", 0, "two", "pending", Json.null, Json.null, Json.null⟩) "W" =
      some ⟨"W", 1, 1, "sora2", 0, "two", "pending", Json.null, Json.null, Json.null⟩ :=
  (C7_amended_silent_replace []
    ⟨"W", 1, 1, "sora2", 0, "one", "pending", Json.null, Json.null, Json.null⟩
    ⟨"W", 1, 1, "sora2", 0, "two", "pending", Json.null, Json.null, Json.null⟩
    rfl (by decide)).2.1

/-- C8: the delivery path contains no post-processing step at all — the
per-job step is completely independent of the dynamically attached
`subtitles_data` payload, and a `kling_motion` job with a subtitles payload
that completes is delivered with the raw, unprocessed URL in exactly one
success attempt (with no skipped-post-processing note anywhere) and removed;
this contradicts the handler, which promises the user the subtitles will be
overlaid. -/
theorem C8_delivery_ignores_postprocessing :
    (∀ gw sf now tasks task sd,
      processTask gw sf now tasks { task with subtitles_data := sd } =
        processTask gw sf now tasks task) ∧
    processTask
        (fun _ _ => GatewayResult.ok [("code", Json.num 200),
          ("data", Json.obj [("state", Json.str "success"),
            ("videoInfo", Json.obj [("videoUrl", Json.str "URL")])])])
        (fun _ => false) 0
        [("K", ⟨"K", 7, 7, "kling_motion", 0, "topic", "pending", Json.null, Json.null,
          Json.obj [("srt", Json.str "1")]⟩)]
        ⟨"K", 7, 7, "kling_motion", 0, "topic", "pending", Json.null, Json.null,
          Json.obj [("srt", Json.str "1")]⟩ =
      Except.ok ([], [Event.sendVideo 7 "K" (Json.str "URL")]) :=
  ⟨processTask_subtitles_irrelevant, by decide⟩

/-- C9: a job whose parsed status is `pending` is left exactly as it was:
the per-job step returns the registry unchanged with no notification
attempts, and a tick over a single such job is a complete no-op (same
registry entry, no events, no abort) — the parsed status is recomputed each
tick and never written to the job. -/
theorem C9_pending_no_mutation :
    ∀ gw sf now tasks task r,
      ¬ now - task.created_at > timeoutSeconds →
      parse_status task (check_task_status gw task) = Except.ok r →
      r.status = "pending" →
      processTask gw sf now tasks task = Except.ok (tasks, []) ∧
      pollTick gw sf now [(task.task_id, task)] = ⟨[(task.task_id, task)], [], none⟩ :=
  fun gw sf now tasks task r ht hp hs =>
    ⟨processTask_pending gw sf now tasks task r ht hp hs,
     pollTick_singleton_pending gw sf now task r ht hp hs⟩

/-- C9 witness: a Veo job still in the queue is untouched by a tick, via the
theorem. -/
theorem C9_witness :
    pollTick (fun _ _ => GatewayResult.ok [("code", Json.num 422), ("msg", Json.str "record is null")])
        (fun _ => false) 30
        [("p1", ⟨"p1", 6, 6, "veo3", 0, "", "pending", Json.null, Json.null, Json.null⟩)] =
      ⟨[("p1", ⟨"p1", 6, 6, "veo3", 0, "", "pending", Json.null, Json.null, Json.null⟩)],
       [], none⟩ :=
  (C9_pending_no_mutation
    (fun _ _ => GatewayResult.ok [("code", Json.num 422), ("msg", Json.str "record is null")])
    (fun _ => false) 30 []
    ⟨"p1", 6, 6, "veo3", 0, "", "pending", Json.null, Json.null, Json.null⟩
    ⟨"pending", Json.null, Json.null⟩ (by decide) (by decide) rfl).2

/-- C10: the HeyGen normalizer can report `completed` with an empty locator;
in that case the tick neither delivers nor removes the job (the success
branch needs a truthy URL), every success notification that is attempted
carries a truthy URL, and the stuck job is eventually finalized by the
uniform timeout. -/
theorem C10_completed_without_url :
    parse_heygen_status [("data", Json.obj [("status", Json.str "completed")])] =
      Except.ok ⟨"completed", Json.null, Json.null⟩ ∧
    (∀ gw sf now tasks task r,
      ¬ now - task.created_at > timeoutSeconds →
      parse_status task (check_task_status gw task) = Except.ok r →
      r.status = "completed" → r.video_url.truthy = false →
      processTask gw sf now tasks task = Except.ok (tasks, [])) ∧
    (∀ gw sf now tasks task t2 evs c i u,
      processTask gw sf now tasks task = Except.ok (t2, evs) →
      Event.sendVideo c i u ∈ evs ∨ Event.sendMessageSuccess c i u ∈ evs →
      u.truthy = true) ∧
    (∀ gw sf now tasks task, now - task.created_at > timeoutSeconds →
      processTask gw sf now tasks task =
        Except.ok (remove_task tasks task.task_id,
          [Event.sendMessageTimeout task.chat_id task.task_id])) :=
  ⟨by decide, processTask_completed_empty, processTask_success_events, processTask_timeout⟩

/-- C10 witness: a HeyGen job reported `completed` without a `video_url`
stays registered and unnotified, via the theorem. -/
theorem C10_witness :
    processTask (fun _ _ => GatewayResult.ok [("data", Json.obj [("status", Json.str "completed")])])
        (fun _ => false) 0
        [("h1", ⟨"h1", 8, 8, "heygen", 0, "", "pending", Json.null, Json.null, Json.null⟩)]
        ⟨"h1", 8, 8, "heygen", 0, "", "pending", Json.null, Json.null, Json.null⟩ =
      Except.ok ([("h1", ⟨"h1", 8, 8, "heygen", 0, "", "pending", Json.null, Json.null,
        Json.null⟩)], []) :=
  C10_completed_without_url.2.1
    (fun _ _ => GatewayResult.ok [("data", Json.obj [("status", Json.str "completed")])])
    (fun _ => false) 0
    [("h1", ⟨"h1", 8, 8, "heygen", 0, "", "pending", Json.null, Json.null, Json.null⟩)]
    ⟨"h1", 8, 8, "heygen", 0, "", "pending", Json.null, Json.null, Json.null⟩
    ⟨"completed", Json.null, Json.null⟩ (by decide) (by decide) rfl rfl


end TaskTrackerSpec
